import Mathlib

/-!
Verification of the nwprog HTTP toolkit against its specification.

The definitions below are a shallow embedding of the C sources:
  * `src/common/tcp_client.c`  — asynchronous TCP connector
  * `src/server/server.c`      — server engine layer
  * `src/server/static.c`      — static file handler
  * `src/common/http.h`        — HTTP engine interface (bounds, status codes)

External collaborators (sockets, the reactor, the filesystem, DNS) are
modelled as oracle environments: a record of the outcomes every external
call would produce, so the embedded control flow is a pure function of
those outcomes, mirroring the C control flow branch by branch.
-/

namespace Nwprog

/-! ## Asynchronous TCP connector (`src/common/tcp_client.c`) -/

/-- Outcomes of the external calls made by one `tcp_connect_async` attempt
for a single candidate address:
`fd` is the descriptor `socket()` would return, `socket_ok` whether
`socket()` succeeds, `nonblock_err` the result of `sock_nonblocking`,
`event_create_err` the result of `event_create`, `connect_err` the result
of `sock_connect` (0 = immediate success, negative = immediate failure,
positive = in progress), `yield_err` the result of `event_yield`, and
`sock_error` the pending socket error read after the yield. -/
structure ConnEnv where
  fd : Nat
  socket_ok : Bool
  nonblock_err : Int
  event_create_err : Int
  connect_err : Int
  yield_err : Int
  sock_error : Int
deriving DecidableEq, Repr

/-- Observable outcome of one `tcp_connect_async` call: the returned error
code, which externally visible steps happened, and the value stored through
`*sockp` (if any). -/
structure ConnResult where
  ret : Int
  sock_opened : Bool
  nonblocking_set : Bool
  event_created : Bool
  event_destroyed : Bool
  connect_attempted : Bool
  sock_closed : Bool
  sock : Option Nat
deriving DecidableEq, Repr

/-- Embedding of `tcp_connect_async` (tcp_client.c lines 15-66).

The C control flow, line by line:
  * `socket()` fails: return 1 (nothing opened).
  * with a reactor (`event_main` non-null): `sock_nonblocking` failure and
    `event_create` failure each `return err` directly — note that these two
    paths do NOT pass through the `error:` label, so neither closes `sock`.
  * `sock_connect`; if the result is positive and an event exists, yield on
    EVENT_WRITE (a yield failure jumps to `error:` with `err` still the
    positive connect result) and on resume take `sock_error(sock)` as `err`.
  * nonzero `err` jumps to `error:`; otherwise `*sockp = sock`.
  * `error:` destroys the event if one was created and closes `sock`
    iff `err` is nonzero. -/
def tcp_connect_async (reactor : Bool) (e : ConnEnv) : ConnResult :=
  if ¬ e.socket_ok then
    { ret := 1, sock_opened := false, nonblocking_set := false,
      event_created := false, event_destroyed := false,
      connect_attempted := false, sock_closed := false, sock := none }
  else if reactor ∧ e.nonblock_err ≠ 0 then
    -- early return: the socket stays open
    { ret := e.nonblock_err, sock_opened := true, nonblocking_set := false,
      event_created := false, event_destroyed := false,
      connect_attempted := false, sock_closed := false, sock := none }
  else if reactor ∧ e.event_create_err ≠ 0 then
    -- early return: the socket stays open
    { ret := e.event_create_err, sock_opened := true, nonblocking_set := true,
      event_created := false, event_destroyed := false,
      connect_attempted := false, sock_closed := false, sock := none }
  else
    let err1 := e.connect_err
    let err2 : Int :=
      if err1 > 0 ∧ reactor then
        if e.yield_err ≠ 0 then err1 else e.sock_error
      else err1
    { ret := err2, sock_opened := true, nonblocking_set := reactor,
      event_created := reactor, event_destroyed := reactor,
      connect_attempted := true, sock_closed := err2 ≠ 0,
      sock := if err2 = 0 then some e.fd else none }

/-- Embedding of the candidate loop of `tcp_connect` (tcp_client.c lines
84-98), with the pre-set error threaded through: `err` starts at 1 and is
overwritten by each `tcp_connect_async` result; a nonzero result `continue`s
to the next candidate, a zero result `break`s. Returns the final `err`, the
value stored through `*sockp`, and the list of candidates attempted, in
order. -/
def tcp_connect_go {α : Type} (reactor : Bool) (envOf : α → ConnEnv) :
    Int → List α → Int × Option Nat × List α
  | err, [] => (err, none, [])
  | _, a :: rest =>
    let r := tcp_connect_async reactor (envOf a)
    if r.ret ≠ 0 then
      let rec' := tcp_connect_go reactor envOf r.ret rest
      (rec'.1, rec'.2.1, a :: rec'.2.2)
    else
      (0, r.sock, [a])

/-- Embedding of `tcp_connect` (tcp_client.c lines 68-103): `getaddrinfo`
failure returns -1; otherwise `err` is pre-set to 1 ("in case of empty
addrs") and the candidate loop runs. -/
def tcp_connect {α : Type} (reactor : Bool) (envOf : α → ConnEnv)
    (resolved : Except Int (List α)) : Int × Option Nat × List α :=
  match resolved with
  | .error _ => (-1, none, [])
  | .ok addrs => tcp_connect_go reactor envOf 1 addrs

/-- Concrete candidate environments for the witness: candidate 0 fails
(`socket()` fails), every other candidate connects immediately. -/
def envW : Nat → ConnEnv := fun n =>
  if n = 0 then ⟨5, false, 0, 0, 0, 0, 0⟩ else ⟨7, true, 0, 0, 0, 0, 0⟩

/-- Concrete candidate environments refuting C3 as stated: candidate 0
fails reactor registration (`event_create` returns 2), candidate 1
connects immediately. -/
def envC3 : Nat → ConnEnv := fun n =>
  if n = 0 then ⟨3, true, 0, 2, 0, 0, 0⟩ else ⟨9, true, 0, 0, 0, 0, 0⟩

/-! ## Server engine layer (`src/server/server.c`)

The response-side state of `struct server_client` (fields `status`,
`header`, `headers`, `body`, server.c lines 39-43) and the response
operations over it. The underlying stream writes are modelled as
succeeding: the claims under study concern the ordering guards, and a
stream-write failure only turns a 0 return into -1 after the guard has
already passed. -/

/-- Response-side state of `struct server_client`: `status` is the status
code already sent (0 = none), `header`/`headers`/`body` whether a header
line was written, the header section was terminated, and a body was
started. -/
structure Client where
  status : Nat
  header : Bool
  headers : Bool
  body : Bool
deriving DecidableEq, Repr

/-- Zero-initialised client (`struct server_client client = { }`). -/
def Client.init : Client := ⟨0, false, false, false⟩

/-- One item written to the response stream. -/
inductive Wire
  | statusLine (status : Nat)
  | headerLine (name value : String)
  | endHeaders
  | bodyBytes (n : Nat)
deriving DecidableEq, Repr

/-- Embedding of `server_response` (server.c lines 188-205): refuses with
-1 (writing nothing) if a status was already sent, else records and writes
the status line. -/
def server_response (c : Client) (status : Nat) : Int × Client × List Wire :=
  if c.status ≠ 0 then (-1, c, [])
  else (0, { c with status := status }, [Wire.statusLine status])

/-- Embedding of `server_response_header` (server.c lines 207-237): refuses
with -1 if no status was sent yet or the header section was already
terminated, else writes one header line. -/
def server_response_header (c : Client) (name value : String) :
    Int × Client × List Wire :=
  if c.status = 0 then (-1, c, [])
  else if c.headers then (-1, c, [])
  else (0, { c with header := true }, [Wire.headerLine name value])

/-- Embedding of `server_response_headers` (server.c lines 239-249): marks
the header section terminated and writes the blank line; the C code has no
guard here. -/
def server_response_headers (c : Client) : Int × Client × List Wire :=
  (0, { c with headers := true }, [Wire.endHeaders])

/-- Embedding of `server_response_file` (server.c lines 251-278): sends the
Content-Length header (whose own guards apply), terminates the headers,
refuses with -1 if a body was already started, else writes the body. -/
def server_response_file (c : Client) (content_length : Nat) :
    Int × Client × List Wire :=
  let r1 := server_response_header c "Content-Length" (toString content_length)
  if r1.1 ≠ 0 then r1
  else
    let r2 := server_response_headers r1.2.1
    if r2.1 ≠ 0 then (r2.1, r2.2.1, r1.2.2 ++ r2.2.2)
    else if r2.2.1.body then (-1, r2.2.1, r1.2.2 ++ r2.2.2)
    else (0, { r2.2.1 with body := true },
          r1.2.2 ++ r2.2.2 ++ [Wire.bodyBytes content_length])

/-- A call through the response interface of server.c. -/
inductive Op
  | response (status : Nat)
  | response_header (name value : String)
  | response_headers
  | response_file (len : Nat)
deriving DecidableEq, Repr

/-- Dispatch one interface call. -/
def step (c : Client) : Op → Int × Client × List Wire
  | .response s => server_response c s
  | .response_header n v => server_response_header c n v
  | .response_headers => server_response_headers c
  | .response_file l => server_response_file c l

/-- Run a sequence of interface calls, concatenating the wire output. -/
def run (c : Client) : List Op → Client × List Wire
  | [] => (c, [])
  | op :: ops =>
    let r := step c op
    let k := run r.2.1 ops
    (k.1, r.2.2 ++ k.2)

/-- Number of response status lines in a wire trace. -/
def statusCount (w : List Wire) : Nat :=
  (w.filter fun x => match x with | .statusLine _ => true | _ => false).length

/-- The status `server_client` decides to send at its `error:` label
(server.c lines 307-319): 500 for a negative error, the error itself when
positive, 0 (nothing) when the handler already sent a status, otherwise
the 500 default with a warning. -/
def server_client_status (err : Int) (c : Client) : Int :=
  if err < 0 then 500
  else if err > 0 then err
  else if c.status ≠ 0 then 0
  else 500

/-- The status-sending step at the `error:` label (server.c lines 321-329):
when a status is due but one was already sent, only a warning is logged;
otherwise the due status is sent via `server_response`. -/
def server_client_send (err : Int) (c : Client) (w : List Wire) :
    Int × Client × List Wire :=
  let status := server_client_status err c
  if status ≠ 0 ∧ c.status ≠ 0 then (err, c, w)
  else if status ≠ 0 then
    ((if (server_response c status.toNat).1 ≠ 0 then -1 else err),
      (server_response c status.toNat).2.1,
      w ++ (server_response c status.toNat).2.2)
  else (err, c, w)

/-- The final headers step (server.c lines 332-337): terminate the header
section if the handler did not. -/
def server_client_endheaders (p : Int × Client × List Wire) :
    Int × Client × List Wire :=
  if ¬ p.2.1.headers then
    ((if (server_response_headers p.2.1).1 ≠ 0 then -1 else p.1),
      (server_response_headers p.2.1).2.1,
      p.2.2 ++ (server_response_headers p.2.1).2.2)
  else p

/-- The whole `error:` tail of `server_client` (server.c lines 305-340). -/
def server_client_finish (err : Int) (c : Client) (w : List Wire) :
    Int × Client × List Wire :=
  server_client_endheaders (server_client_send err c w)

/-- Embedding of `server_client` (server.c lines 283-341). The request
phase is summarised by the outcomes of its calls: `request_err` is
`server_request`'s result, `lookup_err` is `server_lookup_handler`'s
result (consulted only when the request parse succeeded; a positive value
means "no handler", err keeps that value), and the matched handler is
modelled by the sequence of response-interface calls it makes
(`handler_ops`) together with its return value (`handler_ret`). -/
def server_client (request_err lookup_err : Int)
    (handler_ops : List Op) (handler_ret : Int) : Int × Client × List Wire :=
  if request_err ≠ 0 then server_client_finish request_err Client.init []
  else if lookup_err < 0 then server_client_finish lookup_err Client.init []
  else if lookup_err ≠ 0 then server_client_finish lookup_err Client.init []
  else server_client_finish handler_ret
    (run Client.init handler_ops).1 (run Client.init handler_ops).2

/-! ## Request parsing bounds (`server_request`, server.c lines 115-142) -/

/-- `HTTP_METHOD_MAX` (http.h line 17): size of `request_method`. -/
def HTTP_METHOD_MAX : Nat := 64

/-- `HTTP_PATH_MAX` (http.h line 20): size of `request_path`. -/
def HTTP_PATH_MAX : Nat := 1024

/-- Embedding of `server_request` (server.c lines 115-142). `read_err` is
`http_read_request`'s result; `method` and `path` are the parsed tokens.
Returns the result code and the contents of the fixed-size
`request_method[HTTP_METHOD_MAX]` / `request_path[HTTP_PATH_MAX]` buffers
after the call (`none` = buffer not written). The C code checks
`strlen(tok) >= sizeof(buf)` before `strncpy(buf, tok, sizeof(buf))`, so a
copy happens only when the token fits with its NUL terminator, and is then
the full token, NUL-terminated. -/
def server_request (read_err : Int) (method path : String) :
    Int × Option String × Option String :=
  if read_err ≠ 0 then (read_err, none, none)
  else if method.length ≥ HTTP_METHOD_MAX then (400, none, none)
  else if path.length ≥ HTTP_PATH_MAX then (400, some method, none)
  else (0, some method, some path)

/-! ## Chunked transfer encoding (`http_write_chunk` / `http_write_chunks`)

The declarations live in src/common/http.h (lines 93-108); the
implementation file http.c is not part of the sources under src/, so the
writers are modelled from the spec below. -/

/-- Lower-case hexadecimal digit, as printf `%x` renders it. -/
def hexDigitChar (n : Nat) : Char :=
  if n < 10 then Char.ofNat (48 + n) else Char.ofNat (87 + n)

/-- Lower-case hexadecimal rendering of a number, most significant digit
first, as printf `%x` produces (0 renders as "0"). -/
def hexOfNat (n : Nat) : List Char :=
  if h : n < 16 then [hexDigitChar n]
  else hexOfNat (n / 16) ++ [hexDigitChar (n % 16)]
decreasing_by
  exact Nat.div_lt_self (by omega) (by omega)

/-- Numeric value of a lower-case hexadecimal digit. -/
def hexVal (c : Char) : Nat :=
  if c.toNat ≥ 97 then c.toNat - 87 else c.toNat - 48

/-- Parse a hexadecimal digit string back to the number it denotes. -/
def parseHex (l : List Char) : Nat :=
  l.foldl (fun a c => a * 16 + hexVal c) 0

/-- Modelled from the spec: `http_write_chunk` (declared http.h lines
93-96; http.c is not under src/) emits one HTTP/1.1 chunk,
`HEX(size) CRLF <size bytes> CRLF`, with the size of the buffer rendered
in hexadecimal. -/
def http_write_chunk (buf : List Char) : List Char :=
  hexOfNat buf.length ++ [Char.ofNat 13, Char.ofNat 10]
    ++ buf ++ [Char.ofNat 13, Char.ofNat 10]

/-- Modelled from the spec: `http_write_chunks` (declared http.h lines
105-108; http.c is not under src/) emits the terminal zero-size chunk and
empty trailer, `0 CRLF CRLF`. -/
def http_write_chunks : List Char :=
  [Char.ofNat 48, Char.ofNat 13, Char.ofNat 10, Char.ofNat 13, Char.ofNat 10]

/-! ## Static file handler (`src/server/static.c`)

The filesystem is an oracle: the outcome of each syscall
(`open`, `realpath`, `fstat`) as a function of the path it is applied to. -/

/-- The errno values `server_static_error` distinguishes. -/
inductive Errno
  | eacces | eisdir | enametoolong | enoent | enotdir | eother
deriving DecidableEq, Repr

/-- Embedding of `server_static_error` (static.c lines 114-124). -/
def server_static_error : Errno → Int
  | .eacces => 403
  | .eisdir => 405
  | .enametoolong => 414
  | .enoent => 404
  | .enotdir => 404
  | .eother => 500

/-- What `stat.st_mode & S_IFMT` reports for a path. -/
inductive FileKind
  | reg | dir | other
deriving DecidableEq, Repr

/-- Filesystem oracle: per-path outcomes of the syscalls used by
`server_static_lookup` and `server_static_request`. -/
structure Fs where
  openOk : String → Bool
  openErrno : String → Errno
  realpathOf : String → Option String
  realpathErrno : String → Errno
  fstatOk : String → Bool
  fstatErrno : String → Errno
  modeOf : String → FileKind
  sizeOf : String → Nat

/-- `PATH_MAX`, the size of the `path` buffer in `server_static_lookup`. -/
def PATH_MAX : Nat := 4096

/-- Embedding of the mimetype table walk (static.c lines 27-48): `fnmatch`
with pattern `*.html` / `*.txt` and no flags matches any path with that
suffix. -/
def server_static_lookup_mimetype (path : String) : Option String :=
  if ".html".data.isSuffixOf path.data then some "text/html"
  else if ".txt".data.isSuffixOf path.data then some "text/plain"
  else none

/-- Result of `server_static_lookup`: the return code, the opened fd
handed back to the caller (identified by the path it was opened on;
`none` when the fd was closed or never opened), and the mimetype. -/
structure LookupResult where
  ret : Int
  fd : Option String
  mime : Option String
deriving DecidableEq, Repr

/-- Embedding of `server_static_lookup` (static.c lines 129-198).
`ss_realpath` is the `s->realpath` computed by `server_static_create` via
`realpath(root, NULL)`; `root` is `s->root`. Steps: reject request paths
not starting with `/` (400); build `path = root ++ reqpath`, rejecting
overflow of the PATH_MAX buffer (414); `open` it (errno-mapped status on
failure); canonicalize with `realpath` (errno-mapped status on failure);
reject with 403 (closing the fd) unless
`strncmp(ss->realpath, rootpath, strlen(ss->realpath)) == 0`, i.e. unless
the canonical root is a string prefix of the canonical target; `fstat`;
look up the mimetype (no match is not an error). -/
def server_static_lookup (ss_realpath root : String) (fs : Fs)
    (reqpath : String) : LookupResult :=
  if reqpath.data.head? ≠ some '/' then ⟨400, none, none⟩
  else
    let path := root ++ reqpath
    if path.length ≥ PATH_MAX then ⟨414, none, none⟩
    else if ¬ fs.openOk path then ⟨server_static_error (fs.openErrno path), none, none⟩
    else
      match fs.realpathOf path with
      | none => ⟨server_static_error (fs.realpathErrno path), none, none⟩
      | some rootpath =>
        if ¬ ss_realpath.data.isPrefixOf rootpath.data then ⟨403, none, none⟩
        else if ¬ fs.fstatOk path then
          ⟨server_static_error (fs.fstatErrno path), none, none⟩
        else ⟨0, some path, server_static_lookup_mimetype path⟩

/-- A body-producing call the request handler makes after a successful
lookup: serving a regular file (`server_static_file`) or a directory
listing (`server_static_dir`). -/
inductive Serve
  | file (path : String) (mime : Option String) (size : Nat)
  | dir (path : String)
deriving DecidableEq, Repr

/-- Non-filesystem outcomes inside `server_static_request`: the nonzero
result that ends the header loop, whether `fdopen`/`fdopendir` succeed,
and the results of the serving calls. -/
structure ReqEnv where
  fs : Fs
  hdr_ret : Int
  fdopenOk : Bool
  fdopendirOk : Bool
  file_ret : Int
  dir_ret : Int

/-- Embedding of `server_static_request` (static.c lines 203-275): drain
request headers (a negative result aborts); look up the target (a nonzero
result is returned as-is, nothing served); then dispatch on the stat mode —
regular file via `fdopen` + `server_static_file`, directory via
`fdopendir` + `server_static_dir` (which receives the request path), and
anything else 404. -/
def server_static_request (ss_realpath root : String) (e : ReqEnv)
    (reqpath : String) : Int × Option Serve :=
  if e.hdr_ret < 0 then (e.hdr_ret, none)
  else
    let lk := server_static_lookup ss_realpath root e.fs reqpath
    if lk.ret ≠ 0 then (lk.ret, none)
    else
      let path := root ++ reqpath
      match e.fs.modeOf path with
      | .reg =>
        if ¬ e.fdopenOk then (-1, none)
        else (e.file_ret, some (.file path lk.mime (e.fs.sizeOf path)))
      | .dir =>
        if ¬ e.fdopendirOk then (-1, none)
        else (e.dir_ret, some (.dir reqpath))
      | .other => (404, none)

/-- Filesystem for the C4 counterexample, the analogue of root `/var/www`
with a sibling `/var/www-backup` shrunk to short names: the served root is
`/r` (its own canonical path), and the only existing target is
`/r/../rx`, whose canonical path `/rx` lies outside the root — it is a
sibling whose name extends the root's name as a string. -/
def fsC4 : Fs where
  openOk := fun p => p = "/r/../rx"
  openErrno := fun _ => .enoent
  realpathOf := fun p => if p = "/r/../rx" then some "/rx" else none
  realpathErrno := fun _ => .enoent
  fstatOk := fun _ => true
  fstatErrno := fun _ => .eother
  modeOf := fun _ => .reg
  sizeOf := fun _ => 10

/-- Filesystem for the C4-amended witness: target `/w/p` exists and
canonicalizes to `/etc/q`, which does not extend the root `/w`. -/
def fsW : Fs where
  openOk := fun p => p = "/w/p"
  openErrno := fun _ => .enoent
  realpathOf := fun p => if p = "/w/p" then some "/etc/q" else none
  realpathErrno := fun _ => .enoent
  fstatOk := fun _ => true
  fstatErrno := fun _ => .eother
  modeOf := fun _ => .reg
  sizeOf := fun _ => 10

/-- Request environment for the C4-amended witness. -/
def envW4 : ReqEnv :=
  { fs := fsW, hdr_ret := 1, fdopenOk := true, fdopendirOk := true,
    file_ret := 0, dir_ret := 0 }

/-- Filesystem for the C10 witness: served root `/r`, and the one target
`/r/../rx` canonicalizes to the sibling `/rx` — outside the root, but
extending `/r` as a string. -/
def fsSib : Fs where
  openOk := fun p => p = "/r/../rx"
  openErrno := fun _ => .enoent
  realpathOf := fun p => if p = "/r/../rx" then some "/rx" else none
  realpathErrno := fun _ => .enoent
  fstatOk := fun _ => true
  fstatErrno := fun _ => .eother
  modeOf := fun _ => .reg
  sizeOf := fun _ => 10

/-- Request environment for the C10 witness. -/
def envSib : ReqEnv :=
  { fs := fsSib, hdr_ret := 1, fdopenOk := true, fdopendirOk := true,
    file_ret := 0, dir_ret := 0 }

/-- One output action of the directory handler. -/
inductive DirAction
  | redirect (status : Nat) (location : String)
  | statusLine (s : Nat)
  | contentType (t : String)
  | print (s : String)
deriving DecidableEq, Repr

/-- Modelled from the spec: `server_response_redirect` (declared in
server.h; its implementation is not under src/). Per the spec's concrete
scenario ("directory request path `/docs` (no trailing slash) → result is
a 301 redirect to `/docs/`, not a directory listing body"), it sends a 301
redirect response to the given location — the caller formats `"%s/"` over
the request path. -/
def server_response_redirect (location : String) : List DirAction :=
  [DirAction.redirect 301 location]

/-- Embedding of `server_static_dir` (static.c lines 72-109): if the
request path's last character is not '/', redirect to the path with '/'
appended (`server_response_redirect(client, NULL, "%s/", path)`) and
return — no listing is emitted; otherwise send 200, Content-Type
text/html, and print the listing, skipping entries whose name starts with
'.', marking directory entries with a trailing '/'.
(`server_response_print` is not under src/ either; a print is modelled as
the formatted string it sends.) -/
def server_static_dir (path : String) (entries : List (String × Bool)) :
    List DirAction :=
  if path.data.getLast? ≠ some '/' then server_response_redirect (path ++ "/")
  else
    [DirAction.statusLine 200, DirAction.contentType "text/html",
     DirAction.print ("<html><head><title>Index of " ++ path ++ "</title></head>\n"),
     DirAction.print ("<body><h1>Index of " ++ path ++ "</h1><ul>\n")]
    ++ (if path ≠ "/" then [DirAction.print "<li><a href=\"..\">..</a></li>\n"]
        else [])
    ++ (entries.filter (fun d => d.1.data.head? != some '.')).map (fun d =>
         DirAction.print ("\t<li><a href=\"" ++ d.1 ++ (if d.2 then "/" else "")
           ++ "\">" ++ d.1 ++ "</a></li>\n"))
    ++ [DirAction.print "</body></ul>\n", DirAction.print "</html>\n"]

/-! ## Theorems -/

/-- If an attempt returns 0, it stored the candidate's descriptor through
`*sockp`. -/
theorem tcp_connect_async_ret_zero_sock (reactor : Bool) (e : ConnEnv)
    (h : (tcp_connect_async reactor e).ret = 0) :
    (tcp_connect_async reactor e).sock = some e.fd := by
  unfold tcp_connect_async at h ⊢
  split_ifs at h ⊢ with h1 h2 h3 <;> simp_all

/-- The candidate loop: if every candidate in the first `M` fails and
candidate `M` (0-based) succeeds, the loop attempts exactly the first
`M+1` candidates in order and returns 0 with that candidate's socket,
regardless of the incoming pre-set error. -/
theorem tcp_connect_go_spec {α : Type} (reactor : Bool) (envOf : α → ConnEnv) :
    ∀ (addrs : List α) (err : Int) (M : Nat) (hM : M < addrs.length),
      (∀ a ∈ addrs.take M, (tcp_connect_async reactor (envOf a)).ret ≠ 0) →
      (tcp_connect_async reactor (envOf (addrs.get ⟨M, hM⟩))).ret = 0 →
      tcp_connect_go reactor envOf err addrs =
        (0, some (envOf (addrs.get ⟨M, hM⟩)).fd, addrs.take (M + 1))
  | [], _, M, hM => by simp at hM
  | a :: rest, err, 0, hM => by
    intro _ hsucc
    simp only [List.get] at hsucc ⊢
    simp only [tcp_connect_go, hsucc, ne_eq, not_true_eq_false, if_false,
      ite_false, not_not]
    simp [tcp_connect_async_ret_zero_sock reactor (envOf a) hsucc]
  | a :: rest, err, M + 1, hM => by
    intro hfail hsucc
    have hfa : (tcp_connect_async reactor (envOf a)).ret ≠ 0 := by
      apply hfail
      simp [List.take_succ_cons]
    have hM' : M < rest.length := Nat.lt_of_succ_lt_succ hM
    have hfail' : ∀ b ∈ rest.take M, (tcp_connect_async reactor (envOf b)).ret ≠ 0 := by
      intro b hb
      apply hfail
      simp [List.take_succ_cons, hb]
    have hsucc' : (tcp_connect_async reactor (envOf (rest.get ⟨M, hM'⟩))).ret = 0 := hsucc
    have ih := tcp_connect_go_spec reactor envOf rest
      ((tcp_connect_async reactor (envOf a)).ret) M hM' hfail' hsucc'
    simp only [tcp_connect_go, ih, List.take_succ_cons]
    rw [if_pos hfa]
    rfl

/-- C1: `tcp_connect` attempts resolved candidates strictly in resolver
order; when the first `M` fail and candidate `M+1` connects it makes exactly
`M+1` attempts (the `M+1`-long prefix of the candidate list, in order) and
returns 0 with the connected socket; on an empty candidate list it returns
the pre-set error 1 (nonzero), never success. -/
theorem tcp_connect_candidates_in_order {α : Type} (reactor : Bool)
    (envOf : α → ConnEnv) (addrs : List α) (M : Nat) (hM : M < addrs.length)
    (hfail : ∀ a ∈ addrs.take M, (tcp_connect_async reactor (envOf a)).ret ≠ 0)
    (hsucc : (tcp_connect_async reactor (envOf (addrs.get ⟨M, hM⟩))).ret = 0) :
    tcp_connect reactor envOf (Except.ok addrs) =
        (0, some (envOf (addrs.get ⟨M, hM⟩)).fd, addrs.take (M + 1))
      ∧ tcp_connect reactor envOf (Except.ok ([] : List α)) = (1, none, []) :=
  ⟨tcp_connect_go_spec reactor envOf addrs 1 M hM hfail hsucc, rfl⟩

theorem tcp_connect_candidates_in_order_witness :
    (1 < ([0, 1] : List Nat).length)
    ∧ (∀ a ∈ ([0, 1] : List Nat).take 1, (tcp_connect_async false (envW a)).ret ≠ 0)
    ∧ tcp_connect false envW (Except.ok ([0, 1] : List Nat)) = (0, some 7, [0, 1])
    ∧ tcp_connect false envW (Except.ok ([] : List Nat)) = (1, none, []) := by
  refine ⟨by decide, by decide, ?_, ?_⟩
  · exact (tcp_connect_candidates_in_order false envW [0, 1] 1 (by decide)
      (by decide) (by decide)).1
  · exact (tcp_connect_candidates_in_order false envW [0, 1] 1 (by decide)
      (by decide) (by decide)).2

/-- C2: failing inputs for the resource-discipline claim. With a reactor
supplied and `socket()` succeeding, a `sock_nonblocking` failure (and,
likewise, an `event_create` failure) makes `tcp_connect_async` return a
nonzero error by an early `return` that bypasses the `error:` label, so the
opened socket is NOT closed on these failure paths. -/
theorem tcp_connect_async_socket_leak :
    ((tcp_connect_async true ⟨3, true, 2, 0, 0, 0, 0⟩).ret ≠ 0
      ∧ (tcp_connect_async true ⟨3, true, 2, 0, 0, 0, 0⟩).sock_opened = true
      ∧ (tcp_connect_async true ⟨3, true, 2, 0, 0, 0, 0⟩).sock_closed = false)
    ∧ ((tcp_connect_async true ⟨3, true, 0, 2, 0, 0, 0⟩).ret ≠ 0
      ∧ (tcp_connect_async true ⟨3, true, 0, 2, 0, 0, 0⟩).sock_opened = true
      ∧ (tcp_connect_async true ⟨3, true, 0, 2, 0, 0, 0⟩).sock_closed = false) := by
  decide

/-- C3 counterexample: after a reactor-registration failure on the first
candidate (nonzero return, no event created), `tcp_connect` does NOT abort:
it attempts the second candidate as well and returns success — refuting
"tcp_connect does not fall through to try the remaining candidate addresses
after a reactor-registration failure". -/
theorem tcp_connect_registration_failure_falls_through :
    (tcp_connect_async true (envC3 0)).ret = 2
    ∧ (tcp_connect_async true (envC3 0)).event_created = false
    ∧ tcp_connect true envC3 (Except.ok ([0, 1] : List Nat)) = (0, some 9, [0, 1]) := by
  decide

/-- C3 amended: with a reactor supplied, the socket is put in non-blocking
mode and registered before any connect is attempted; a registration failure
aborts the current candidate's attempt with that error (no connect issued);
but `tcp_connect` treats that error like any other candidate failure and
continues with the remaining candidates. -/
theorem tcp_connect_registration_failure_per_candidate
    (e : ConnEnv) (hs : e.socket_ok = true) (hn : e.nonblock_err = 0)
    (hr : e.event_create_err ≠ 0) :
    ((tcp_connect_async true e).ret = e.event_create_err
      ∧ (tcp_connect_async true e).connect_attempted = false)
    ∧ (∀ e' : ConnEnv, (tcp_connect_async true e').connect_attempted = true →
        (tcp_connect_async true e').nonblocking_set = true
          ∧ (tcp_connect_async true e').event_created = true)
    ∧ (∀ (envOf : Nat → ConnEnv) (a : Nat) (rest : List Nat),
        (tcp_connect_async true (envOf a)).ret ≠ 0 →
        tcp_connect true envOf (Except.ok (a :: rest)) =
          ((tcp_connect_go true envOf (tcp_connect_async true (envOf a)).ret rest).1,
           (tcp_connect_go true envOf (tcp_connect_async true (envOf a)).ret rest).2.1,
           a :: (tcp_connect_go true envOf
              (tcp_connect_async true (envOf a)).ret rest).2.2)) := by
  refine ⟨?_, ?_, ?_⟩
  · unfold tcp_connect_async
    split_ifs with h1 h2 h3 <;> simp_all
  · intro e' h
    unfold tcp_connect_async at h ⊢
    split_ifs at h ⊢ with h1 h2 h3 <;> simp_all
  · intro envOf a rest h
    simp only [tcp_connect, tcp_connect_go]
    rw [if_pos h]

theorem tcp_connect_registration_failure_per_candidate_witness :
    ((⟨3, true, 0, 2, 0, 0, 0⟩ : ConnEnv).socket_ok = true
      ∧ (⟨3, true, 0, 2, 0, 0, 0⟩ : ConnEnv).nonblock_err = 0
      ∧ (⟨3, true, 0, 2, 0, 0, 0⟩ : ConnEnv).event_create_err ≠ 0)
    ∧ ((tcp_connect_async true ⟨3, true, 0, 2, 0, 0, 0⟩).ret = 2
      ∧ (tcp_connect_async true ⟨3, true, 0, 2, 0, 0, 0⟩).connect_attempted = false) :=
  ⟨⟨rfl, rfl, by decide⟩, by
    have h := (tcp_connect_registration_failure_per_candidate
      ⟨3, true, 0, 2, 0, 0, 0⟩ rfl rfl (by decide)).1
    exact h⟩

theorem statusCount_append (a b : List Wire) :
    statusCount (a ++ b) = statusCount a + statusCount b := by
  simp [statusCount, List.filter_append]

/-- One interface call never changes an already-sent status, and emits a
status line exactly when it is a `response` call on a client with no status
sent yet. -/
theorem step_status (c : Client) (op : Op) :
    (step c op).2.1.status = (match op with
      | .response s => if c.status = 0 then s else c.status
      | _ => c.status)
    ∧ statusCount (step c op).2.2 =
        (match op with
          | .response _ => if c.status = 0 then 1 else 0
          | _ => 0) := by
  cases op <;>
    simp only [step, server_response, server_response_header,
      server_response_headers, server_response_file, statusCount] <;>
    (try split_ifs <;> simp_all) <;> simp_all

/-- Once a status has been sent it is never overwritten by later interface
calls. -/
theorem run_status_preserved :
    ∀ (ops : List Op) (c : Client), c.status ≠ 0 → (run c ops).1.status = c.status
  | [], c, _ => rfl
  | op :: ops, c, h => by
    have hs := (step_status c op).1
    have hstep : (step c op).2.1.status = c.status := by
      cases op <;> simp only at hs <;> simp [hs, if_neg h]
    have := run_status_preserved ops (step c op).2.1 (by rw [hstep]; exact h)
    simp only [run, this, hstep]

/-- The number of status lines a call sequence emits is 1 exactly when it
starts with no status sent and ends with one (provided no call tries to
"send" the non-status 0), and 0 otherwise. -/
theorem run_statusCount :
    ∀ (ops : List Op) (c : Client), (∀ s, Op.response s ∈ ops → s ≠ 0) →
      statusCount (run c ops).2 =
        if c.status = 0 ∧ (run c ops).1.status ≠ 0 then 1 else 0
  | [], c, _ => by
    simp [run, statusCount]
  | op :: ops, c, hne => by
    have hne' : ∀ s, Op.response s ∈ ops → s ≠ 0 :=
      fun s hs => hne s (List.mem_cons_of_mem _ hs)
    have ih := run_statusCount ops (step c op).2.1 hne'
    have hst := (step_status c op).1
    have hct := (step_status c op).2
    have hrun : run c (op :: ops) =
        ((run (step c op).2.1 ops).1, (step c op).2.2 ++ (run (step c op).2.1 ops).2) := rfl
    rw [hrun]
    simp only [statusCount_append, ih]
    cases op with
    | response s =>
      have hs : s ≠ 0 := hne s (List.mem_cons_self _ _)
      simp only at hst hct
      by_cases hc : c.status = 0
      · rw [if_pos hc] at hst hct
        have hfin : (run (step c (Op.response s)).2.1 ops).1.status = s := by
          rw [run_status_preserved ops _ (by rw [hst]; exact hs), hst]
        simp [hct, hst, hfin, hs, hc]
      · rw [if_neg hc] at hst hct
        simp [hct, hst, hc]
    | response_header n v =>
      simp only at hst hct
      simp [hct, hst]
    | response_headers =>
      simp only at hst hct
      simp [hct, hst]
    | response_file l =>
      simp only at hst hct
      simp [hct, hst]

/-- C6: write-ordering discipline of the response interface.
`server_response` fails with -1 writing nothing when a status was already
sent; `server_response_header` fails with -1 when no status has been sent
or the header section was already terminated; `server_response_file` fails
with -1 when a body was already started; and any sequence of interface
calls from a fresh client emits at most one response status line. -/
theorem server_response_write_discipline :
    (∀ (c : Client) (s : Nat), c.status ≠ 0 → server_response c s = (-1, c, []))
    ∧ (∀ (c : Client) (n v : String), c.status = 0 ∨ c.headers = true →
        (server_response_header c n v).1 = -1)
    ∧ (∀ (c : Client) (l : Nat), c.body = true → (server_response_file c l).1 = -1)
    ∧ (∀ ops : List Op, (∀ s, Op.response s ∈ ops → s ≠ 0) →
        statusCount (run Client.init ops).2 ≤ 1) := by
  refine ⟨?_, ?_, ?_, ?_⟩
  · intro c s h
    simp [server_response, h]
  · intro c n v h
    rcases h with h | h <;> simp [server_response_header, h]
  · intro c l h
    by_cases hs : c.status = 0
    · simp [server_response_file, server_response_header, hs]
    · by_cases hh : c.headers
      · simp [server_response_file, server_response_header, hs, hh]
      · simp [server_response_file, server_response_header,
          server_response_headers, hs, hh, h]
  · intro ops hne
    rw [run_statusCount ops Client.init hne]
    split_ifs <;> simp

theorem server_response_write_discipline_witness :
    ((⟨200, false, false, false⟩ : Client).status ≠ 0
      ∧ server_response ⟨200, false, false, false⟩ 404 =
          (-1, ⟨200, false, false, false⟩, []))
    ∧ (((⟨0, false, false, false⟩ : Client).status = 0
          ∨ (⟨0, false, false, false⟩ : Client).headers = true)
      ∧ (server_response_header ⟨0, false, false, false⟩ "Content-Type" "x").1 = -1)
    ∧ ((⟨200, true, true, true⟩ : Client).body = true
      ∧ (server_response_file ⟨200, true, true, true⟩ 3).1 = -1)
    ∧ ((∀ s, Op.response s ∈ [Op.response 200, Op.response 404] → s ≠ 0)
      ∧ statusCount (run Client.init [Op.response 200, Op.response 404]).2 ≤ 1) := by
  have hne : ∀ s, Op.response s ∈ [Op.response 200, Op.response 404] → s ≠ 0 := by
    intro s hs
    simp only [List.mem_cons, List.mem_singleton, Op.response.injEq,
      List.not_mem_nil, or_false] at hs
    rcases hs with h | h <;> omega
  refine ⟨⟨by decide, server_response_write_discipline.1 _ 404 (by decide)⟩,
    ⟨Or.inl rfl, server_response_write_discipline.2.1 _ "Content-Type" "x" (Or.inl rfl)⟩,
    ⟨rfl, server_response_write_discipline.2.2.1 _ 3 rfl⟩,
    ⟨hne, server_response_write_discipline.2.2.2 _ hne⟩⟩

theorem server_client_endheaders_statusCount (p : Int × Client × List Wire) :
    statusCount (server_client_endheaders p).2.2 = statusCount p.2.2 := by
  unfold server_client_endheaders
  by_cases h : p.2.1.headers <;>
    simp [h, server_response_headers, statusCount_append, statusCount]

theorem server_client_endheaders_mem (p : Int × Client × List Wire) (x : Wire)
    (hx : x ∈ p.2.2) : x ∈ (server_client_endheaders p).2.2 := by
  unfold server_client_endheaders
  by_cases h : p.2.1.headers <;> simp [h, server_response_headers, hx]

theorem server_client_status_ne_zero (err : Int) (c : Client)
    (hc : c.status = 0) : server_client_status err c ≠ 0 := by
  unfold server_client_status
  split_ifs with h1 h2 h3
  · omega
  · omega
  · exact absurd hc h3
  · omega

theorem server_client_status_500 (err : Int) (c : Client)
    (he : err ≤ 0) (hc : c.status = 0) : server_client_status err c = 500 := by
  unfold server_client_status
  split_ifs with h1 h2 h3
  · rfl
  · omega
  · exact absurd hc h3
  · rfl

theorem server_client_send_statusCount (err : Int) (c : Client) (w : List Wire) :
    statusCount (server_client_send err c w).2.2 =
      statusCount w + (if c.status = 0 then 1 else 0) := by
  unfold server_client_send
  by_cases hc : c.status = 0
  · have hS := server_client_status_ne_zero err c hc
    rw [if_neg (by simp [hc]), if_pos hS]
    simp [server_response, hc, statusCount_append, statusCount]
  · by_cases hS : server_client_status err c ≠ 0
    · rw [if_pos ⟨hS, hc⟩]
      simp [hc]
    · rw [if_neg (by tauto), if_neg hS]
      simp [hc]

theorem server_client_send_mem_500 (err : Int) (c : Client) (w : List Wire)
    (he : err ≤ 0) (hc : c.status = 0) :
    Wire.statusLine 500 ∈ (server_client_send err c w).2.2 := by
  unfold server_client_send
  rw [server_client_status_500 err c he hc]
  rw [if_neg (by simp [hc]), if_pos (by omega)]
  simp [server_response, hc]

/-- The `error:` tail emits exactly one status line when none was sent yet
and none otherwise; and when the incoming error is nonpositive and no
status was sent, the status it emits is the 500 default. -/
theorem server_client_finish_spec (err : Int) (c : Client) (w : List Wire) :
    statusCount (server_client_finish err c w).2.2 =
        statusCount w + (if c.status = 0 then 1 else 0)
    ∧ (err ≤ 0 → c.status = 0 →
        Wire.statusLine 500 ∈ (server_client_finish err c w).2.2) := by
  refine ⟨?_, ?_⟩
  · rw [server_client_finish, server_client_endheaders_statusCount,
      server_client_send_statusCount]
  · intro he hc
    exact server_client_endheaders_mem _ _ (server_client_send_mem_500 err c w he hc)

/-- C5 counterexample to the claim as stated: a handler that sends a 200
status and then returns a negative internal error. `server_client` does
not send a 500 — the already-sent check only logs a warning — so the
exchange completes with status 200, not 500. -/
theorem server_client_no_500_after_status_sent :
    (server_client 0 0 [Op.response 200] (-1)).1 = -1
    ∧ (server_client 0 0 [Op.response 200] (-1)).2.2 =
        [Wire.statusLine 200, Wire.endHeaders]
    ∧ Wire.statusLine 500 ∉ (server_client 0 0 [Op.response 200] (-1)).2.2 := by
  decide

/-- C5 amended: if the handler returns a negative (or zero) result and
never sent a response status, `server_client` sends the default 500 before
finishing; when a status was already sent, a nonzero error only logs a
warning and the already-sent status stands; in all cases the exchange
completes with exactly one status line sent. -/
theorem server_client_defaults_500 (request_err lookup_err handler_ret : Int)
    (handler_ops : List Op)
    (hne : ∀ s, Op.response s ∈ handler_ops → s ≠ 0) :
    (request_err = 0 → lookup_err = 0 → handler_ret ≤ 0 →
        (run Client.init handler_ops).1.status = 0 →
        Wire.statusLine 500 ∈
          (server_client request_err lookup_err handler_ops handler_ret).2.2)
    ∧ statusCount
        (server_client request_err lookup_err handler_ops handler_ret).2.2 = 1 := by
  constructor
  · intro h1 h2 h3 h4
    subst h1
    subst h2
    have hcl : server_client 0 0 handler_ops handler_ret =
        server_client_finish handler_ret (run Client.init handler_ops).1
          (run Client.init handler_ops).2 := by
      simp [server_client]
    rw [hcl]
    exact (server_client_finish_spec handler_ret _ _).2 h3 h4
  · by_cases h1 : request_err ≠ 0
    · simp only [server_client, if_pos h1]
      have := (server_client_finish_spec request_err Client.init []).1
      simpa [statusCount, Client.init] using this
    · by_cases h2 : lookup_err < 0
      · simp only [server_client, if_neg h1, if_pos h2]
        have := (server_client_finish_spec lookup_err Client.init []).1
        simpa [statusCount, Client.init] using this
      · by_cases h3 : lookup_err ≠ 0
        · simp only [server_client, if_neg h1, if_neg (by omega : ¬ lookup_err < 0),
            if_pos h3]
          have := (server_client_finish_spec lookup_err Client.init []).1
          simpa [statusCount, Client.init] using this
        · simp only [server_client, if_neg h1, if_neg (by omega : ¬ lookup_err < 0),
            if_neg h3]
          have hf := (server_client_finish_spec handler_ret
            (run Client.init handler_ops).1 (run Client.init handler_ops).2).1
          have hr := run_statusCount handler_ops Client.init hne
          rw [hf, hr]
          split_ifs <;> simp_all [Client.init]

theorem server_client_defaults_500_witness :
    ((∀ s, Op.response s ∈ ([] : List Op) → s ≠ 0)
      ∧ ((0 : Int) = 0 ∧ (0 : Int) = 0 ∧ (-1 : Int) ≤ 0
          ∧ (run Client.init []).1.status = 0)
      ∧ Wire.statusLine 500 ∈ (server_client 0 0 [] (-1)).2.2)
    ∧ statusCount (server_client 0 0 [] (-1)).2.2 = 1 := by
  have hne : ∀ s, Op.response s ∈ ([] : List Op) → s ≠ 0 := by
    intro s hs
    simp at hs
  exact ⟨⟨hne, ⟨rfl, rfl, by omega, rfl⟩,
      (server_client_defaults_500 0 0 (-1) [] hne).1 rfl rfl (by omega) rfl⟩,
    (server_client_defaults_500 0 0 (-1) [] hne).2⟩

/-- C7: a method token of `HTTP_METHOD_MAX` (64) bytes or more, or a path
token of `HTTP_PATH_MAX` (1024) bytes or more, yields 400; every string
stored into a request buffer is strictly shorter than the buffer (so the
copy plus NUL terminator never passes the end); in-bounds tokens are stored
intact. -/
theorem server_request_bounds (method path : String) :
    (method.length ≥ HTTP_METHOD_MAX →
        server_request 0 method path = (400, none, none))
    ∧ (method.length < HTTP_METHOD_MAX → path.length ≥ HTTP_PATH_MAX →
        server_request 0 method path = (400, some method, none))
    ∧ (method.length < HTTP_METHOD_MAX → path.length < HTTP_PATH_MAX →
        server_request 0 method path = (0, some method, some path))
    ∧ (∀ m, (server_request 0 method path).2.1 = some m →
        m.length < HTTP_METHOD_MAX)
    ∧ (∀ p, (server_request 0 method path).2.2 = some p →
        p.length < HTTP_PATH_MAX) := by
  refine ⟨?_, ?_, ?_, ?_, ?_⟩ <;>
    simp only [server_request, HTTP_METHOD_MAX, HTTP_PATH_MAX] <;>
    split_ifs <;> simp_all

theorem server_request_bounds_witness :
    ((String.mk (List.replicate 64 'A')).length ≥ HTTP_METHOD_MAX
      ∧ server_request 0 (String.mk (List.replicate 64 'A')) "/" = (400, none, none))
    ∧ ("GET".length < HTTP_METHOD_MAX ∧ "/index.html".length < HTTP_PATH_MAX
      ∧ server_request 0 "GET" "/index.html" = (0, some "GET", some "/index.html")) := by
  have h1 : (String.mk (List.replicate 64 'A')).length ≥ HTTP_METHOD_MAX := by
    simp [String.length, HTTP_METHOD_MAX]
  have h2 : ("GET" : String).length < HTTP_METHOD_MAX := by decide
  have h3 : ("/index.html" : String).length < HTTP_PATH_MAX := by decide
  exact ⟨⟨h1, (server_request_bounds (String.mk (List.replicate 64 'A')) "/").1 h1⟩,
    ⟨h2, h3, (server_request_bounds "GET" "/index.html").2.2.1 h2 h3⟩⟩

theorem parseHex_append (l : List Char) (c : Char) :
    parseHex (l ++ [c]) = parseHex l * 16 + hexVal c := by
  simp [parseHex, List.foldl_append]

theorem hexVal_hexDigitChar : ∀ n, n < 16 → hexVal (hexDigitChar n) = n := by
  decide

/-- `hexOfNat` is a faithful hexadecimal rendering: parsing it back yields
the number. -/
theorem parseHex_hexOfNat (n : Nat) : parseHex (hexOfNat n) = n := by
  induction n using Nat.strong_induction_on with
  | _ n ih =>
    by_cases h : n < 16
    · rw [hexOfNat, dif_pos h]
      simp [parseHex, hexVal_hexDigitChar n h]
    · rw [hexOfNat, dif_neg h, parseHex_append,
        ih (n / 16) (Nat.div_lt_self (by omega) (by omega)),
        hexVal_hexDigitChar (n % 16) (by omega)]
      omega

/-- C9: for every byte string `s`, `http_write_chunk` followed by
`http_write_chunks` puts exactly `HEX(len(s)) CRLF s CRLF 0 CRLF CRLF` on
the wire, byte for byte, where the hex size field genuinely denotes
`len(s)` (parsing it back yields the length). -/
theorem http_write_chunk_wire (s : List Char) :
    http_write_chunk s ++ http_write_chunks =
      hexOfNat s.length ++ [Char.ofNat 13, Char.ofNat 10] ++ s
        ++ [Char.ofNat 13, Char.ofNat 10]
        ++ [Char.ofNat 48, Char.ofNat 13, Char.ofNat 10, Char.ofNat 13, Char.ofNat 10]
    ∧ parseHex (hexOfNat s.length) = s.length :=
  ⟨by simp [http_write_chunk, http_write_chunks], parseHex_hexOfNat s.length⟩

/-- C4 counterexample: request path `/../rx` against served root `/r`
canonicalizes to `/rx`, an existing file outside the root (not the root
itself and not below `/r/`), yet `server_static_lookup` returns 0 and
hands back the fd — not 403 — because the containment check is only a
string-prefix comparison. -/
theorem server_static_lookup_escape_not_rejected :
    (fsC4.realpathOf ("/r" ++ "/../rx") = some "/rx"
      ∧ ¬ (("/rx" : String) = "/r"
            ∨ ("/r" ++ "/").data.isPrefixOf "/rx".data = true))
    ∧ (server_static_lookup "/r" "/r" fsC4 "/../rx").ret = 0
    ∧ (server_static_lookup "/r" "/r" fsC4 "/../rx").fd = some "/r/../rx" := by
  decide

/-- C4 amended: for every request path whose canonicalized target exists
but does NOT extend the canonicalized root as a string prefix (which
covers `/../../etc/passwd` against `/var/www`, canonicalizing to
`/etc/passwd`), `server_static_lookup` returns 403 without handing back
the fd, and `server_static_request` serves nothing, returning 403 when it
reaches the lookup; targets outside the root whose canonical path does
extend the root as a string (siblings like `/var/www-backup`) are not
rejected. -/
theorem server_static_lookup_rejects_nonprefix (ssrp root reqpath q : String)
    (fs : Fs)
    (h1 : reqpath.data.head? = some '/')
    (h2 : root.length + reqpath.length < PATH_MAX)
    (h3 : fs.openOk (root ++ reqpath) = true)
    (h4 : fs.realpathOf (root ++ reqpath) = some q)
    (h5 : ssrp.data.isPrefixOf q.data = false) :
    server_static_lookup ssrp root fs reqpath = ⟨403, none, none⟩
    ∧ ∀ e : ReqEnv, e.fs = fs →
        (server_static_request ssrp root e reqpath).2 = none
        ∧ (0 ≤ e.hdr_ret → (server_static_request ssrp root e reqpath).1 = 403) := by
  have h2' : ¬ root.length + reqpath.length ≥ PATH_MAX := by omega
  have hlk : server_static_lookup ssrp root fs reqpath = ⟨403, none, none⟩ := by
    simp [server_static_lookup, h1, h2', h3, h4, h5]
  refine ⟨hlk, ?_⟩
  intro e he
  by_cases hh : e.hdr_ret < 0
  · constructor
    · simp [server_static_request, hh]
    · intro h
      omega
  · constructor <;> simp [server_static_request, hh, he, hlk]

theorem server_static_lookup_rejects_nonprefix_witness :
    (("/p" : String).data.head? = some '/'
      ∧ ("/w" : String).length + ("/p" : String).length < PATH_MAX
      ∧ fsW.openOk ("/w" ++ "/p") = true
      ∧ fsW.realpathOf ("/w" ++ "/p") = some "/etc/q"
      ∧ ("/w" : String).data.isPrefixOf ("/etc/q" : String).data = false)
    ∧ server_static_lookup "/w" "/w" fsW "/p" = ⟨403, none, none⟩
    ∧ (server_static_request "/w" "/w" envW4 "/p").2 = none
    ∧ (server_static_request "/w" "/w" envW4 "/p").1 = 403 := by
  have h := server_static_lookup_rejects_nonprefix "/w" "/w" "/p" "/etc/q" fsW
    (by decide) (by decide) (by decide) (by decide) (by decide)
  refine ⟨⟨by decide, by decide, by decide, by decide, by decide⟩, h.1, ?_, ?_⟩
  · exact (h.2 envW4 rfl).1
  · exact (h.2 envW4 rfl).2 (by decide)

/-- C10: whenever the canonicalized target extends the canonicalized root
as a plain string prefix and the target opens and stats as a regular file,
`server_static_lookup` accepts it (returns 0 with the fd and mimetype) and
`server_static_request` proceeds to serve it via `server_static_file` —
the containment test is only `strncmp(ss->realpath, rootpath,
strlen(ss->realpath))`. -/
theorem server_static_lookup_prefix_accepts (ssrp root reqpath q : String)
    (e : ReqEnv)
    (h1 : reqpath.data.head? = some '/')
    (h2 : root.length + reqpath.length < PATH_MAX)
    (h3 : e.fs.openOk (root ++ reqpath) = true)
    (h4 : e.fs.realpathOf (root ++ reqpath) = some q)
    (h5 : ssrp.data.isPrefixOf q.data = true)
    (h6 : e.fs.fstatOk (root ++ reqpath) = true)
    (h7 : e.fs.modeOf (root ++ reqpath) = FileKind.reg)
    (h8 : e.fdopenOk = true)
    (h9 : 0 ≤ e.hdr_ret) :
    server_static_lookup ssrp root e.fs reqpath =
      ⟨0, some (root ++ reqpath), server_static_lookup_mimetype (root ++ reqpath)⟩
    ∧ server_static_request ssrp root e reqpath =
        (e.file_ret, some (Serve.file (root ++ reqpath)
          (server_static_lookup_mimetype (root ++ reqpath))
          (e.fs.sizeOf (root ++ reqpath)))) := by
  have h2' : ¬ root.length + reqpath.length ≥ PATH_MAX := by omega
  have hlk : server_static_lookup ssrp root e.fs reqpath =
      ⟨0, some (root ++ reqpath), server_static_lookup_mimetype (root ++ reqpath)⟩ := by
    simp [server_static_lookup, h1, h2', h3, h4, h5, h6]
  have hh : ¬ e.hdr_ret < 0 := by omega
  refine ⟨hlk, ?_⟩
  simp [server_static_request, hh, hlk, h7, h8]

theorem server_static_lookup_prefix_accepts_witness :
    (("/../rx" : String).data.head? = some '/'
      ∧ envSib.fs.realpathOf ("/r" ++ "/../rx") = some "/rx"
      ∧ ("/r" : String).data.isPrefixOf ("/rx" : String).data = true
      ∧ ¬ (("/rx" : String) = "/r"
            ∨ ("/r" ++ "/").data.isPrefixOf ("/rx" : String).data = true))
    ∧ (server_static_lookup "/r" "/r" envSib.fs "/../rx").ret = 0
    ∧ server_static_request "/r" "/r" envSib "/../rx" =
        (0, some (Serve.file "/r/../rx" none 10)) := by
  have h := server_static_lookup_prefix_accepts "/r" "/r" "/../rx" "/rx" envSib
    (by decide) (by decide) (by decide) (by decide) (by decide) (by decide)
    (by decide) (by decide) (by decide)
  refine ⟨⟨by decide, by decide, by decide, by decide⟩, ?_, ?_⟩
  · rw [h.1]
  · rw [h.2]
    decide

/-- C8: a directory request whose path does not end in '/' gets a 301
redirect to the path with '/' appended, and no directory-listing body is
emitted (the handler's whole output is the redirect). -/
theorem server_static_dir_redirects (path : String)
    (entries : List (String × Bool))
    (h0 : path ≠ "") (h1 : path.data.getLast? ≠ some '/') :
    server_static_dir path entries = [DirAction.redirect 301 (path ++ "/")]
    ∧ ∀ s, DirAction.print s ∉ server_static_dir path entries := by
  refine ⟨?_, ?_⟩
  · simp [server_static_dir, h1, server_response_redirect]
  · intro s
    simp [server_static_dir, h1, server_response_redirect]

theorem server_static_dir_redirects_witness :
    (("/docs" : String) ≠ "" ∧ ("/docs" : String).data.getLast? ≠ some '/')
    ∧ server_static_dir "/docs" [("index.html", false)] =
        [DirAction.redirect 301 "/docs/"]
    ∧ ∀ s, DirAction.print s ∉ server_static_dir "/docs" [("index.html", false)] := by
  have h := server_static_dir_redirects "/docs" [("index.html", false)]
    (by decide) (by decide)
  refine ⟨⟨by decide, by decide⟩, ?_, h.2⟩
  rw [h.1]
  decide

end Nwprog
